import Mathlib

/-!
Verification of `otodom/utils.py` (pyotodom): URL building, region resolution,
text normalization, and response-extraction helpers, shallowly embedded in Lean.

Python strings are Lean `String`s (lists of unicode scalar `Char`s); Python
dictionaries are association lists in insertion order; Python exceptions are
an explicit `PyErr` error type threaded through `Except`; the network fetch
performed by `get_response_for_url` followed by `json.loads` is an explicit
oracle parameter `fetch : String → Option (List JObj)` (`none` models a
malformed or absent JSON body, i.e. a `json.loads` failure).
-/

namespace Pyotodom

/-! ## Python values

The values this module handles: filter values (scalars and lists of scalars)
and parsed JSON values (the autosuggest response: a JSON array of flat
objects with string/number fields). -/

/-- A scalar Python value: a string or an integer.  Every leaf value this
module handles (filter scalars, list elements, JSON field values) is one of
these. -/
inductive PyScalar where
  | s (v : String)
  | i (n : Int)
deriving DecidableEq, Repr

/-- A Python filter value: a scalar or a list of scalars.  The module treats
a value as a sequence exactly when `isinstance(value, list)`; nested
containers never occur in this code's inputs. -/
inductive PyVal where
  | s (v : String)
  | i (n : Int)
  | list (xs : List PyScalar)
deriving DecidableEq, Repr

/-- Python `str` of a scalar: the string itself, or the decimal rendering of
an int — the semantics of `"\x7b\x7d".format(value)` at a scalar. -/
def pyStrScalar : PyScalar → String
  | .s v => v
  | .i n => toString n

/-- Python `repr` of a scalar: strings are quoted with single quotes (escape
sequences inside the string are not modelled; no claim formats a string that
needs them). -/
def pyReprScalar : PyScalar → String
  | .s v => "\x27" ++ v ++ "\x27"
  | .i n => toString n

/-- Python `str` / `"\x7b\x7d".format(value)` of a filter value: a string
renders as itself, an int in decimal, a list as the bracketed comma-separated
`repr` of its elements. -/
def pyStr : PyVal → String
  | .s v => v
  | .i n => toString n
  | .list xs => "[" ++ ", ".intercalate (xs.map pyReprScalar) ++ "]"

/-- A scalar embeds into the filter-value type (this happens when a scalar
taken from the parsed JSON response is stored into the filter dict). -/
def scalarVal : PyScalar → PyVal
  | .s v => .s v
  | .i n => .i n

/-! ## Python dict operations on association lists -/

/-- `d.get(k)` / `d[k]` lookup: value at the first occurrence of the key. -/
def dictGet? (fs : List (String × PyVal)) (k : String) : Option PyVal :=
  (fs.find? (fun kv => kv.1 = k)).map (fun kv => kv.2)

/-- `k in d`. -/
def dictContains (fs : List (String × PyVal)) (k : String) : Bool :=
  (dictGet? fs k).isSome

/-- `d[k] = v`: replace the value at an existing key in place (keeping its
insertion position), or append a new entry. -/
def dictSet (fs : List (String × PyVal)) (k : String) (v : PyVal) :
    List (String × PyVal) :=
  if dictContains fs k then
    fs.map (fun kv => if kv.1 = k then (k, v) else kv)
  else
    fs ++ [(k, v)]

/-! ## `normalize_text`

The source is
`unicodedata.normalize('NFKD', text.lower()).encode('ascii', 'ignore').decode("utf-8").replace(" ", "-")`.

The Unicode case and NFKD decomposition data are modelled for the
characters this development exercises: ASCII, the Polish diacritic letters,
`É`/`é`, and representative compatibility characters whose decompositions
emit uppercase ASCII (`№` U+2116 → `No`, `℉` U+2109 → `°F`, `ᴬ` U+1D2C →
`A`).  Every other character is modelled as having no case mapping and no
decomposition.  Note that `Ł`/`ł` (U+0141/U+0142, letters with stroke) have
NO decomposition in Unicode, so the ASCII step drops them entirely; and
that `№`, `℉`, `ᴬ` have no lowercase mapping, so their decompositions leak
uppercase ASCII letters into the output. -/

/-- Python `str.lower`, per character: ASCII `A`-`Z` map down by 32; the
uppercase Polish diacritic letters and `É` map to their lowercase forms
(all these lowercase forms lie above U+007F); characters without a
lowercase mapping (including `№`, `℉`, `ᴬ`) are unchanged. -/
def pyLowerChar (c : Char) : Char :=
  if c = 'Ł' then 'ł' else if c = 'Ó' then 'ó' else if c = 'Ź' then 'ź'
  else if c = 'Ż' then 'ż' else if c = 'Ą' then 'ą' else if c = 'Ć' then 'ć'
  else if c = 'Ę' then 'ę' else if c = 'Ń' then 'ń' else if c = 'Ś' then 'ś'
  else if c = 'É' then 'é'
  else if 65 ≤ c.toNat ∧ c.toNat ≤ 90 then Char.ofNat (c.toNat + 32)
  else c

/-- Unicode NFKD decomposition, per character: the lowercase Polish letters
with combining-mark decompositions decompose (`ó` = `o` + U+0301, `ź` = `z` +
U+0301, `ż` = `z` + U+0307, `ą` = `a` + U+0328, `ę` = `e` + U+0328, `ć` = `c`
+ U+0301, `ń` = `n` + U+0301, `ś` = `s` + U+0301, `é` = `e` + U+0301); the
compatibility decompositions `№` = `N o`, `℉` = `°` + `F`, `ᴬ` = `A` emit
uppercase ASCII; `ł` has no decomposition in Unicode and stays as is; other
characters are modelled as undecomposed (every modelled decomposition key
lies above U+007F, as in Unicode, where no ASCII character decomposes). -/
def nfkdChar (c : Char) : List Char :=
  if c = 'ó' then ['o', '́'] else if c = 'ź' then ['z', '́']
  else if c = 'ż' then ['z', '̇'] else if c = 'ą' then ['a', '̨']
  else if c = 'ę' then ['e', '̨'] else if c = 'ć' then ['c', '́']
  else if c = 'ń' then ['n', '́'] else if c = 'ś' then ['s', '́']
  else if c = 'é' then ['e', '́']
  else if c = '№' then ['N', 'o'] else if c = '℉' then ['°', 'F']
  else if c = 'ᴬ' then ['A']
  else [c]

/-- `normalize_text` from `otodom/utils.py`: lowercase, NFKD-decompose,
drop non-ASCII code points (`encode('ascii', 'ignore')`), then replace every
space with a hyphen. -/
def normalize_text (text : String) : String :=
  String.mk ((((text.data.map pyLowerChar).map nfkdChar).flatten.filter
    (fun c => c.toNat < 128)).map (fun c => if c = ' ' then '-' else c))

/-- A character is clean when it is ASCII, not an uppercase ASCII letter, and
not a space — the shape of the characters `normalize_text` emits for ASCII
and Polish-letter inputs (compatibility characters such as `№` leak
uppercase and violate it). -/
def cleanChar (c : Char) : Bool :=
  decide (c.toNat < 128) && !(decide (65 ≤ c.toNat) && decide (c.toNat ≤ 90)) && !(c = ' ')

/-- A character is ASCII and not a space — the shape of every character
`normalize_text` can emit, whatever the input. -/
def asciiNoSpace (c : Char) : Bool :=
  decide (c.toNat < 128) && !(c = ' ')

/-- The contribution of one input character to the output of
`normalize_text`: lowercase, decompose, drop non-ASCII, map space to
hyphen. -/
def charContrib (c : Char) : List Char :=
  ((nfkdChar (pyLowerChar c)).filter (fun d => d.toNat < 128)).map
    (fun d => if d = ' ' then '-' else d)

theorem char_toNat_ofNat (n : Nat) (h : n < 0xD800) : (Char.ofNat n).toNat = n := by
  have hv : n.isValidChar := Or.inl h
  simp only [Char.ofNat, hv, dif_pos, Char.ofNatAux, Char.toNat, UInt32.toNat, Fin.val,
    BitVec.toNat_ofNatLt]

theorem nfkdChar_eq_self {c : Char} (h : c.toNat < 128) : nfkdChar c = [c] := by
  unfold nfkdChar
  repeat rw [if_neg (fun he => absurd (he ▸ h) (by decide))]

theorem pyLowerChar_eq_self {c : Char} (h : c.toNat < 128)
    (h2 : ¬(65 ≤ c.toNat ∧ c.toNat ≤ 90)) : pyLowerChar c = c := by
  unfold pyLowerChar
  repeat rw [if_neg (fun he => absurd (he ▸ h) (by decide))]
  exact if_neg h2

/-- Whatever the input character, its contribution to the output consists of
ASCII non-space characters: everything non-ASCII is dropped by the filter and
every surviving space becomes a hyphen. -/
theorem charContrib_all_asciiNoSpace (c : Char) :
    (charContrib c).all asciiNoSpace = true := by
  rw [List.all_eq_true]
  intro e he
  unfold charContrib at he
  rw [List.mem_map] at he
  obtain ⟨d, hd, hde⟩ := he
  subst hde
  rw [List.mem_filter] at hd
  have hda : d.toNat < 128 := of_decide_eq_true hd.2
  by_cases hsp : d = ' '
  · subst hsp
    decide
  · rw [if_neg hsp]
    unfold asciiNoSpace
    rw [decide_eq_true hda, decide_eq_false hsp]
    rfl

/-- An ASCII input character contributes only clean characters: ASCII
uppercase is lowered, no decomposition applies to ASCII, and a space becomes
a hyphen. -/
theorem charContrib_clean_of_ascii (c : Char) (h : c.toNat < 128) :
    (charContrib c).all cleanChar = true := by
  unfold charContrib pyLowerChar
  repeat rw [if_neg (fun he => absurd (he ▸ h) (by decide))]
  by_cases h10 : 65 ≤ c.toNat ∧ c.toNat ≤ 90
  · rw [if_pos h10]
    have hx : (Char.ofNat (c.toNat + 32)).toNat = c.toNat + 32 :=
      char_toNat_ofNat _ (by omega)
    generalize hgen : Char.ofNat (c.toNat + 32) = x at hx ⊢
    have hsp : ¬(x = ' ') := fun he => by
      rw [he, show (' ' : Char).toNat = 32 from rfl] at hx
      omega
    rw [nfkdChar_eq_self (show x.toNat < 128 by omega)]
    have hfil : List.filter (fun d => decide (d.toNat < 128)) [x] = [x] := by
      simp only [List.filter_cons, List.filter_nil]
      rw [if_pos (decide_eq_true (show x.toNat < 128 by omega))]
    rw [hfil]
    simp only [List.map_cons, List.map_nil, if_neg hsp, List.all_cons, List.all_nil,
      Bool.and_true, cleanChar]
    rw [hx, decide_eq_true (show c.toNat + 32 < 128 by omega),
      decide_eq_false (show ¬(c.toNat + 32 ≤ 90) by omega), decide_eq_false hsp]
    simp
  · rw [if_neg h10, nfkdChar_eq_self h]
    by_cases hsp : c = ' '
    · subst hsp
      decide
    · simp [List.filter, List.all, h, cleanChar, hsp, h10]
      omega

theorem charContrib_eq_self {c : Char} (h : cleanChar c = true) : charContrib c = [c] := by
  unfold cleanChar at h
  rw [Bool.and_eq_true, Bool.and_eq_true] at h
  obtain ⟨⟨ha, hb⟩, hd⟩ := h
  have h1 : c.toNat < 128 := of_decide_eq_true ha
  have h3 : ¬(c = ' ') := by
    intro he
    rw [decide_eq_true he] at hd
    exact absurd hd (by decide)
  have h2' : ¬(65 ≤ c.toNat ∧ c.toNat ≤ 90) := by
    intro hcon
    rw [decide_eq_true hcon.1, decide_eq_true hcon.2] at hb
    exact absurd hb (by decide)
  unfold charContrib
  rw [pyLowerChar_eq_self h1 h2', nfkdChar_eq_self h1]
  have hfil : List.filter (fun d => decide (d.toNat < 128)) [c] = [c] := by
    simp only [List.filter_cons, List.filter_nil]
    rw [if_pos (decide_eq_true h1)]
  rw [hfil]
  simp only [List.map_cons, List.map_nil, if_neg h3]

theorem flatten_filter {α : Type} (p : α → Bool) :
    ∀ L : List (List α), L.flatten.filter p = (L.map (fun l => l.filter p)).flatten := by
  intro L
  induction L with
  | nil => rfl
  | cons hd tl ih => simp [List.filter_append, ih]

theorem flatten_map {α β : Type} (f : α → β) :
    ∀ L : List (List α), L.flatten.map f = (L.map (fun l => l.map f)).flatten := by
  intro L
  induction L with
  | nil => rfl
  | cons hd tl ih => simp [List.map_append, ih]

/-- `normalize_text` is the per-character contribution, concatenated. -/
theorem normalize_text_eq_flat (s : String) :
    normalize_text s = String.mk ((s.data.map charContrib).flatten) := by
  unfold normalize_text
  rw [List.map_map, flatten_filter, flatten_map, List.map_map, List.map_map]
  rfl

theorem flatten_map_eq_self {α : Type} (f : α → List α) :
    ∀ L : List α, (∀ e ∈ L, f e = [e]) → (L.map f).flatten = L := by
  intro L
  induction L with
  | nil => intro _; rfl
  | cons hd tl ih =>
    intro h
    simp only [List.map_cons, List.flatten_cons, h hd (by simp)]
    rw [ih (fun e he => h e (by simp [he]))]
    rfl

/-- Every character of every `normalize_text` output is ASCII and not a
space. -/
theorem normalize_text_all_asciiNoSpace (s : String) :
    (normalize_text s).data.all asciiNoSpace = true := by
  rw [normalize_text_eq_flat]
  rw [List.all_eq_true]
  intro e he
  rw [List.mem_flatten] at he
  obtain ⟨l, hl, hel⟩ := he
  rw [List.mem_map] at hl
  obtain ⟨c, _, hc⟩ := hl
  subst hc
  exact List.all_eq_true.mp (charContrib_all_asciiNoSpace c) e hel

/-- When every input character contributes only clean characters, the whole
output is clean. -/
theorem normalize_text_clean_of (s : String)
    (h : s.data.all (fun c => (charContrib c).all cleanChar) = true) :
    (normalize_text s).data.all cleanChar = true := by
  rw [normalize_text_eq_flat]
  rw [List.all_eq_true]
  intro e he
  rw [List.mem_flatten] at he
  obtain ⟨l, hl, hel⟩ := he
  rw [List.mem_map] at hl
  obtain ⟨c, hcm, hc⟩ := hl
  subst hc
  exact List.all_eq_true.mp (List.all_eq_true.mp h c hcm) e hel

/-- **C1.** The claim states `normalize_text "Łódź Wola" = "lodz-wola"`.  It is
false: `ł` has no NFKD decomposition in Unicode, so the
`encode(\x27ascii\x27, \x27ignore\x27)` step drops it entirely and the result
is `"odz-wola"`. -/
theorem normalize_text_lodz_counterexample :
    normalize_text "Łódź Wola" ≠ "lodz-wola" ∧ normalize_text "Łódź Wola" = "odz-wola" := by
  constructor
  · decide
  · decide

/-- **C1 (amended).** `normalize_text "Łódź Wola" = "odz-wola"` (the `ł` is
dropped, not transliterated); the empty string maps to the empty string; for
every input string the output is ASCII-only with no spaces (every surviving
space replaced by a hyphen); the output is moreover free of uppercase ASCII
whenever every input character contributes only clean characters — in
particular for every ASCII input — but NOT universally: compatibility
characters whose NFKD decomposition emits uppercase ASCII leak it into the
output (`normalize_text "№" = "No"`, `normalize_text "℉" = "F"`). -/
theorem normalize_text_amended_spec :
    normalize_text "Łódź Wola" = "odz-wola" ∧ normalize_text "" = "" ∧
    (∀ s : String, (normalize_text s).data.all asciiNoSpace = true) ∧
    (∀ s : String, s.data.all (fun c => (charContrib c).all cleanChar) = true →
      (normalize_text s).data.all cleanChar = true) ∧
    (∀ s : String, s.data.all (fun c => c.toNat < 128) = true →
      (normalize_text s).data.all cleanChar = true) ∧
    normalize_text "№" = "No" ∧ normalize_text "℉" = "F" := by
  refine ⟨by decide, by decide, normalize_text_all_asciiNoSpace,
    normalize_text_clean_of, fun s h => ?_, by decide, by decide⟩
  apply normalize_text_clean_of
  rw [List.all_eq_true]
  intro c hc
  exact charContrib_clean_of_ascii c (of_decide_eq_true (List.all_eq_true.mp h c hc))

theorem normalize_text_amended_spec_witness :
    ("Zielona Gora 5".data.all (fun c => c.toNat < 128) = true) ∧
    (normalize_text "Zielona Gora 5").data.all cleanChar = true :=
  ⟨by decide, normalize_text_amended_spec.2.2.2.2.1 "Zielona Gora 5" (by decide)⟩

/-- **C10.** The claim states `normalize_text` is idempotent for every input
string.  It is false: `№` (U+2116) has the NFKD compatibility decomposition
`No`, whose uppercase `N` survives the ASCII filter, so
`normalize_text "№" = "No"` while a second application lowercases it to
`"no"`. -/
theorem normalize_text_idem_counterexample :
    normalize_text "№" = "No" ∧ normalize_text (normalize_text "№") = "no" ∧
      normalize_text (normalize_text "№") ≠ normalize_text "№" := by
  refine ⟨by decide, by decide, by decide⟩

/-- **C10 (amended).** `normalize_text` is idempotent on every input whose
output contains no uppercase ASCII letter (the output is always ASCII with no
spaces, and such clean strings are fixed points); the claim's universal form
fails only for inputs whose decompositions emit uppercase ASCII, such as
`№`. -/
theorem normalize_text_idem :
    ∀ s : String, (normalize_text s).data.all cleanChar = true →
      normalize_text (normalize_text s) = normalize_text s := by
  intro s h
  rw [normalize_text_eq_flat (normalize_text s)]
  rw [List.all_eq_true] at h
  rw [flatten_map_eq_self charContrib _ (fun e he => charContrib_eq_self (h e he))]

theorem normalize_text_idem_witness :
    (normalize_text "Łódź Wola").data.all cleanChar = true ∧
    normalize_text (normalize_text "Łódź Wola") = normalize_text "Łódź Wola" :=
  ⟨by decide, normalize_text_idem "Łódź Wola" (by decide)⟩

/-! ## `get_region_from_filters` -/

/-- The four filter keys carrying region data (`REGION_DATA_KEYS` in
`otodom/utils.py`). -/
def REGION_DATA_KEYS : List String := ["city", "voivodeship", "[district_id]", "[street_id]"]

/-- `get_region_from_filters`: the dict comprehension
`(region_data: filters.get(region_data) for region_data in REGION_DATA_KEYS if region_data in filters)`
— iterate over the recognized region keys and keep those present in the
filters with their values. -/
def get_region_from_filters (filters : List (String × PyVal)) : List (String × PyVal) :=
  REGION_DATA_KEYS.filterMap (fun k => (dictGet? filters k).map (fun v => (k, v)))

theorem dictGet_filterMap_keys (keys : List String) (filters : List (String × PyVal))
    (hnd : keys.Nodup) (k : String) :
    dictGet? (keys.filterMap (fun k2 => (dictGet? filters k2).map (fun v => (k2, v)))) k =
      if k ∈ keys then dictGet? filters k else none := by
  induction keys with
  | nil => simp [dictGet?]
  | cons hd tl ih =>
    rw [List.nodup_cons] at hnd
    rcases hv : dictGet? filters hd with _ | v
    · have hstep : (hd :: tl).filterMap
          (fun k2 => (dictGet? filters k2).map (fun v => (k2, v))) =
          tl.filterMap (fun k2 => (dictGet? filters k2).map (fun v => (k2, v))) := by
        rw [List.filterMap_cons, hv]
        rfl
      rw [hstep, ih hnd.2]
      by_cases hk : k = hd
      · subst hk
        rw [if_neg hnd.1, if_pos (by simp), hv]
      · by_cases hm : k ∈ tl
        · rw [if_pos hm, if_pos (by simp [hm])]
        · rw [if_neg hm, if_neg (by simp [hm, hk])]
    · have hstep : (hd :: tl).filterMap
          (fun k2 => (dictGet? filters k2).map (fun v => (k2, v))) =
          (hd, v) :: tl.filterMap (fun k2 => (dictGet? filters k2).map (fun v => (k2, v))) := by
        rw [List.filterMap_cons, hv]
        rfl
      rw [hstep]
      by_cases hk : k = hd
      · subst hk
        have hfind : dictGet? ((k, v) :: tl.filterMap
            (fun k2 => (dictGet? filters k2).map (fun v => (k2, v)))) k = some v := by
          simp [dictGet?, List.find?]
        rw [hfind, if_pos (by simp), hv]
      · have hskip : dictGet? ((hd, v) :: tl.filterMap
            (fun k2 => (dictGet? filters k2).map (fun v => (k2, v)))) k =
            dictGet? (tl.filterMap (fun k2 => (dictGet? filters k2).map (fun v => (k2, v)))) k := by
          unfold dictGet?
          rw [List.find?_cons_of_neg]
          simp only [decide_eq_true_eq]
          exact fun h => hk h.symm
        rw [hskip, ih hnd.2]
        by_cases hm : k ∈ tl
        · rw [if_pos hm, if_pos (by simp [hm])]
        · rw [if_neg hm, if_neg (by simp [hm, hk])]

/-- **C3.** `get_region_from_filters` is exactly the restriction of the
filter mapping to the four recognized region keys: lookup of a recognized
key gives the filter value, lookup of any other key gives nothing, every
entry of the result carries a recognized key, and the concrete example from
the spec holds. -/
theorem get_region_from_filters_spec :
    (∀ (filters : List (String × PyVal)) (k : String),
      dictGet? (get_region_from_filters filters) k =
        if k ∈ REGION_DATA_KEYS then dictGet? filters k else none) ∧
    (∀ filters : List (String × PyVal),
      (get_region_from_filters filters).all (fun kv => REGION_DATA_KEYS.contains kv.1) = true) ∧
    get_region_from_filters [("city", .s "warszawa_1"), ("unused", .s "x")] =
      [("city", .s "warszawa_1")] := by
  refine ⟨fun filters k => dictGet_filterMap_keys _ filters (by decide) k, fun filters => ?_, rfl⟩
  rw [List.all_eq_true]
  intro kv hkv
  unfold get_region_from_filters at hkv
  rw [List.mem_filterMap] at hkv
  obtain ⟨a, ha, hmap⟩ := hkv
  rcases hv : dictGet? filters a with _ | v
  · rw [hv] at hmap; exact absurd hmap (by simp)
  · rw [hv] at hmap
    have hkv2 : kv = (a, v) := by
      rw [show Option.map (fun v => (a, v)) (some v) = some (a, v) from rfl] at hmap
      exact (Option.some_inj.mp hmap).symm
    subst hkv2
    simpa using ha

/-! ## `urllib.parse.quote` -/

/-- UTF-8 encoding of one unicode scalar value, as a list of byte values. -/
def utf8Bytes (c : Char) : List Nat :=
  let n := c.toNat
  if n < 0x80 then [n]
  else if n < 0x800 then [0xC0 ||| (n >>> 6), 0x80 ||| (n &&& 0x3F)]
  else if n < 0x10000 then
    [0xE0 ||| (n >>> 12), 0x80 ||| ((n >>> 6) &&& 0x3F), 0x80 ||| (n &&& 0x3F)]
  else
    [0xF0 ||| (n >>> 18), 0x80 ||| ((n >>> 12) &&& 0x3F), 0x80 ||| ((n >>> 6) &&& 0x3F),
      0x80 ||| (n &&& 0x3F)]

/-- Uppercase hexadecimal digit for a value below 16. -/
def hexDigit (n : Nat) : Char :=
  if n < 10 then Char.ofNat (48 + n) else Char.ofNat (55 + n)

/-- `%XX` percent-encoding of one byte. -/
def percentEncode (b : Nat) : String :=
  String.mk ['%', hexDigit (b / 16), hexDigit (b % 16)]

/-- The characters `urllib.parse.quote` leaves intact: ASCII alphanumerics,
`_.-~`, and the default safe character `/`. -/
def quoteKeep (c : Char) : Bool :=
  c.isAlphanum || c = '-' || c = '_' || c = '.' || c = '~' || c = '/'

/-- `urllib.parse.quote` with its default `safe="/"`: keep safe characters,
percent-encode the UTF-8 bytes of everything else. -/
def pyQuote (s : String) : String :=
  String.join (s.data.map (fun c =>
    if quoteKeep c then String.mk [c] else String.join ((utf8Bytes c).map percentEncode)))

/-! ## Python string helpers: `replace`, `split(sep)`, `split()`

These are fueled by the input length so that the recursion is structural and
the kernel can evaluate them; the fuel, being the input length, never runs
out. -/

/-- One pass of `str.replace`: replace each non-overlapping occurrence of
`pat`, scanning left to right.  (Python treats an empty pattern by splicing
`rep` between characters; this module only ever replaces non-empty
patterns, and an empty `pat` is modelled as matching nowhere.) -/
def replaceFuel (pat rep : List Char) : Nat → List Char → List Char
  | _, [] => []
  | 0, l => l
  | fuel + 1, c :: rest =>
    if pat ≠ [] ∧ pat.isPrefixOf (c :: rest) then
      rep ++ replaceFuel pat rep fuel (List.drop (pat.length - 1) rest)
    else
      c :: replaceFuel pat rep fuel rest

/-- Python `s.replace(pat, rep)`. -/
def pyReplace (s pat rep : String) : String :=
  String.mk (replaceFuel pat.data rep.data s.data.length s.data)

/-- Python `s.split(sep)` with a non-empty separator: split at every
occurrence, keeping empty parts. -/
def splitFuel (sep : List Char) : Nat → List Char → List (List Char)
  | _, [] => [[]]
  | 0, l => [l]
  | fuel + 1, c :: rest =>
    if sep ≠ [] ∧ sep.isPrefixOf (c :: rest) then
      [] :: splitFuel sep fuel (List.drop (sep.length - 1) rest)
    else
      match splitFuel sep fuel rest with
      | [] => [[c]]
      | part :: parts => (c :: part) :: parts

/-- Python `s.split(sep)`. -/
def pySplit (s sep : String) : List String :=
  (splitFuel sep.data s.data.length s.data).map String.mk

/-- Python `\s` / `str.split()` whitespace (the ASCII whitespace class;
unicode whitespace beyond it is not modelled). -/
def isPySpace (c : Char) : Bool :=
  c = ' ' || c = '\t' || c = '\n' || c = '\r' || c = '\x0b' || c = '\x0c'

/-- Python `s.split()` (no separator): split on whitespace runs, discarding
empty parts.  `acc` is the current word, in reverse. -/
def splitWsAux (acc : List Char) : List Char → List (List Char)
  | [] => if acc.isEmpty then [] else [acc.reverse]
  | c :: rest =>
    if isPySpace c then
      if acc.isEmpty then splitWsAux [] rest else acc.reverse :: splitWsAux [] rest
    else
      splitWsAux (c :: acc) rest

/-- Python `s.split()`. -/
def pySplitWs (s : String) : List String :=
  (splitWsAux [] s.data).map String.mk

/-! ## Errors, JSON, and the autosuggest resolver

`get_region_from_autosuggest` performs
`json.loads(get_response_for_url(url).text)`.  The composition of the HTTP
GET and the JSON parse is the oracle `fetch`: it yields the parsed response
— a JSON array of flat objects with scalar fields, the shape this endpoint
serves — or `none` when the body is absent or fails to parse (a JSON body of
an entirely different shape also raises on subscripting in Python and is
subsumed in the `none` case). -/

/-- A Python exception, by kind. -/
inductive PyErr where
  | keyError (k : String)
  | indexError
  | typeError
  | attributeError
  | jsonError
deriving DecidableEq, Repr

/-- Does an `Except` result model a raised exception? -/
def raises {α : Type} : Except PyErr α → Bool
  | .ok _ => false
  | .error _ => true

/-- A parsed JSON object with scalar fields. -/
abbrev JObj : Type := List (String × PyScalar)

/-- `obj[k]` on a parsed JSON object: `KeyError` when absent. -/
def objGet (o : JObj) (k : String) : Except PyErr PyScalar :=
  match (List.find? (fun kv => kv.1 = k) o).map (fun kv => kv.2) with
  | some v => .ok v
  | none => .error (.keyError k)

/-- `l[n]` on a Python list: `IndexError` when out of range. -/
def listIdx {α : Type} (l : List α) (n : Nat) : Except PyErr α :=
  match l.get? n with
  | some x => .ok x
  | none => .error .indexError

/-- The autosuggest URL: `region_part` is substituted into the template
verbatim (the code does not URL-escape it). -/
def autosuggestUrl (region_part : String) : String :=
  "https://www.otodom.pl/ajax/geo6/autosuggest/?data=" ++ region_part

/-- The `text` field processing: strip the bold wrapper tags, then split on
`", "`. -/
def textParts (t : String) : List String :=
  pySplit (pyReplace (pyReplace t "<strong>" "") "</strong>" "") ", "

/-- The `if`/`elif` chain of `get_region_from_autosuggest`, given the
`level` field, the processed `text` parts, and the response object.  An
unrecognized `level` (including a non-string one, which compares unequal to
every branch literal) falls through every branch and the initial empty dict
is returned. -/
def autosuggestBranch (level : PyScalar) (text : List String) (response : JObj) :
    Except PyErr (List (String × PyVal)) :=
  match level with
  | .i _ => .ok []
  | .s lv =>
    if lv = "CITY" then
      match listIdx text 0 with
      | .error e => .error e
      | .ok t0 =>
        match objGet response "city_id" with
        | .error e => .error e
        | .ok cid =>
          .ok [("city", .s (normalize_text t0 ++ "_" ++ pyStrScalar cid))]
    else if lv = "DISTRICT" then
      match listIdx text 1 with
      | .error e => .error e
      | .ok t1 =>
        match objGet response "city_id" with
        | .error e => .error e
        | .ok cid =>
          match objGet response "district_id" with
          | .error e => .error e
          | .ok did =>
            .ok [("city", .s (normalize_text t1 ++ "_" ++ pyStrScalar cid)),
              ("[district_id]", scalarVal did)]
    else if lv = "REGION" then
      match listIdx text 0 with
      | .error e => .error e
      | .ok t0 => .ok [("voivodeship", .s (normalize_text t0))]
    else if lv = "STREET" then
      match listIdx text 0 with
      | .error e => .error e
      | .ok t0 =>
        match objGet response "city_id" with
        | .error e => .error e
        | .ok cid =>
          match objGet response "street_id" with
          | .error e => .error e
          | .ok sid =>
            .ok [("city", .s (normalize_text t0 ++ "_" ++ pyStrScalar cid)),
              ("[street_id]", scalarVal sid)]
    else .ok []

/-- The body of `get_region_from_autosuggest` after `[0]`: read `level`
(`KeyError` when absent), read and process `text` (`KeyError` when absent,
`AttributeError` for `.replace` on a non-string), then branch on the
level. -/
def autosuggestFrom (response : JObj) : Except PyErr (List (String × PyVal)) :=
  match objGet response "level" with
  | .error e => .error e
  | .ok level =>
    match objGet response "text" with
    | .error e => .error e
    | .ok (.i _) => .error .attributeError
    | .ok (.s rawText) => autosuggestBranch level (textParts rawText) response

/-- `get_region_from_autosuggest` from `otodom/utils.py`: empty region part
short-circuits to the empty dict with no fetch; otherwise fetch and parse
the autosuggest response (`json.loads` failure when `none`), read `[0]`
(`IndexError` on an empty array), and populate the region dict from the
first element. -/
def get_region_from_autosuggest (region_part : String)
    (fetch : String → Option (List JObj)) : Except PyErr (List (String × PyVal)) :=
  if region_part = "" then .ok []
  else
    match fetch (autosuggestUrl region_part) with
    | none => .error .jsonError
    | some [] => .error .indexError
    | some (response :: _) => autosuggestFrom response

/-! ## `get_url` -/

/-- Modelled from the spec: `BASE_URL` is imported from the `otodom` package
root, which is not among the sources under review; the spec fixes the
listing-search base URL to the site root. -/
def BASE_URL : String := "https://www.otodom.pl"

/-- `"page=\x7b0\x7d".format(page) if page is not None else ""`. -/
def pageOf : Option Nat → String
  | some p => "page=" ++ toString p
  | none => ""

/-- The region-resolution step of `get_url`: if any recognized region key is
present in the filters, project the region out of the filters; otherwise ask
the autosuggest endpoint. -/
def regionDataOf (filters : List (String × PyVal)) (region : String)
    (fetch : String → Option (List JObj)) : Except PyErr (List (String × PyVal)) :=
  if REGION_DATA_KEYS.any (fun k => dictContains filters k) then
    .ok (get_region_from_filters filters)
  else
    get_region_from_autosuggest region fetch

/-- The path's location segment: `city` if present, else `voivodeship`, else
empty. -/
def cityOrVoivodeship (region_data : List (String × PyVal)) : String :=
  match dictGet? region_data "city" with
  | some v => pyStr v
  | none =>
    match dictGet? region_data "voivodeship" with
    | some v => pyStr v
    | none => ""

/-- Promote district/street ids found in the resolved region data into the
filter mapping (district first, then street, as in the source). -/
def promote (region_data filters : List (String × PyVal)) : List (String × PyVal) :=
  let filters :=
    match dictGet? region_data "[district_id]" with
    | some v => dictSet filters "[district_id]" v
    | none => filters
  match dictGet? region_data "[street_id]" with
  | some v => dictSet filters "[street_id]" v
  | none => filters

/-- The path part of the URL: base/category/detail/location, then the
optional building-type segment, then the optional `q-` description
segment — in that fixed order. -/
def get_url_path (main_category detail_category : String)
    (region_data filters : List (String × PyVal)) : String :=
  let url := "/".intercalate
    [BASE_URL, main_category, detail_category, cityOrVoivodeship region_data]
  let url :=
    match dictGet? filters "building_type" with
    | some v => url ++ "/" ++ pyStr v
    | none => url
  match dictGet? filters "description_fragment" with
  | some v => url ++ "/q-" ++ "-".intercalate (pySplitWs (pyStr v))
  | none => url

/-- The `filter_list` loop of `get_url`: one `search<key>=<value>` fragment
per element for a list value, one fragment for a scalar value, the key
URL-escaped. -/
def queryFragments (filters : List (String × PyVal)) : List String :=
  (filters.map (fun kv =>
    match kv.2 with
    | .list xs => xs.map (fun item => "search" ++ pyQuote kv.1 ++ "=" ++ pyStrScalar item)
    | v => ["search" ++ pyQuote kv.1 ++ "=" ++ pyStr v])).flatten

/-- `get_url` from `otodom/utils.py`: resolve the region (errors from the
autosuggest call propagate), compute the location segment, promote
district/street ids into the filters, build the path, and append
`"&".join([ads_per_page, page, *filter_list])`. -/
def get_url (main_category detail_category region : String)
    (ads_per_page : String) (page : Option Nat)
    (filters : List (String × PyVal))
    (fetch : String → Option (List JObj)) : Except PyErr String :=
  match regionDataOf filters region fetch with
  | .error e => .error e
  | .ok region_data =>
    let filters2 := promote region_data filters
    .ok (get_url_path main_category detail_category region_data filters2 ++
      "&".intercalate (ads_per_page :: pageOf page :: queryFragments filters2))

/-! ## Cookie and CSRF extraction -/

/-- Python `\w` (the ASCII word class; unicode word characters beyond it are
not modelled). -/
def isWordChar (c : Char) : Bool :=
  c.isAlphanum || c = '_'

/-- Match the tail of the pattern
`csrfToken\s+=(\\|\s)+\x27(?P<csrf_token>\w+)` at the head of the
character list, returning the named capture on success.  Each quantified
class is followed by a character outside the class, so maximal munch
coincides with the backtracking semantics. -/
def matchCsrfAt (cs : List Char) : Option String :=
  if "csrfToken".data.isPrefixOf cs then
    let r1 := cs.drop 9
    if (r1.takeWhile isPySpace).isEmpty then none
    else
      match r1.dropWhile isPySpace with
      | '=' :: r2 =>
        if (r2.takeWhile (fun c => c = '\\' || isPySpace c)).isEmpty then none
        else
          match r2.dropWhile (fun c => c = '\\' || isPySpace c) with
          | q :: r3 =>
            if q = '\x27' then
              let w := r3.takeWhile isWordChar
              if w.isEmpty then none else some (String.mk w)
            else none
          | [] => none
      | _ => none
  else none

/-- `re.match(r".*csrfToken\s+=(\\|\s)+\x27(?P<csrf_token>\w+).*", s)`:
the leading `.*` cannot cross a newline and is greedy, so the match, if any,
uses the last viable start position within the first line; the trailing
`.*` matches anything.  Returns the `csrf_token` capture group of the match,
or `none` when the pattern does not match. -/
def reMatchCsrf (s : String) : Option String :=
  let cs := s.data
  let limit := (cs.takeWhile (fun c => !(c = '\n'))).length
  ((List.range (limit + 1)).reverse).findSome? (fun i => matchCsrfAt (cs.drop i))

/-- `get_csrf_token` from `otodom/utils.py`: run the regex match and return
`found.groupdict().get('csrf_token')`.  When the pattern does not match,
`re.match` returns `None` and the attribute access `None.groupdict()`
raises `AttributeError`. -/
def get_csrf_token (html_content : String) : Except PyErr (Option String) :=
  match reMatchCsrf html_content with
  | some tok => .ok (some tok)
  | none => .error .attributeError

/-- `get_cookie_from`: the part of the `Set-Cookie` header before the first
`;` (the header is passed in as a string; a missing header raises a
`KeyError` at the caller, before this function runs). -/
def get_cookie_from (setCookie : String) : String :=
  match pySplit setCookie ";" with
  | [] => ""
  | part :: _ => part

/-! ## Claim theorems about `get_url` -/

theorem dictGet_cons (k0 : String) (v0 : PyVal) (tl : List (String × PyVal)) (k : String) :
    dictGet? ((k0, v0) :: tl) k = if k0 = k then some v0 else dictGet? tl k := by
  unfold dictGet?
  by_cases hk : k0 = k
  · rw [List.find?_cons_of_pos _ (by simpa using hk), if_pos hk]
    rfl
  · rw [List.find?_cons_of_neg _ (by simpa using hk), if_neg hk]

theorem queryFragments_cons (k : String) (v : PyVal) (rest : List (String × PyVal)) :
    queryFragments ((k, v) :: rest) =
      (match v with
        | .list xs => xs.map (fun item => "search" ++ pyQuote k ++ "=" ++ pyStrScalar item)
        | v => ["search" ++ pyQuote k ++ "=" ++ pyStr v]) ++ queryFragments rest := by
  unfold queryFragments
  rw [List.map_cons, List.flatten_cons]

/-- **C2.** When the filters contain a recognized region key, `get_url`
resolves the region purely from the filters — its result does not depend on
the fetch oracle at all, so the autosuggest endpoint is never consulted;
otherwise the region comes from `get_region_from_autosuggest` on the
`region` argument.  The two sources are never merged: the resolved region
data is exactly one of the two. -/
theorem get_url_region_shortcircuit :
    ∀ (main detail region ads : String) (page : Option Nat)
      (filters : List (String × PyVal)) (f1 f2 : String → Option (List JObj)),
      (REGION_DATA_KEYS.any (fun k => dictContains filters k) = true →
        regionDataOf filters region f1 = .ok (get_region_from_filters filters) ∧
        get_url main detail region ads page filters f1 =
          get_url main detail region ads page filters f2) ∧
      (REGION_DATA_KEYS.any (fun k => dictContains filters k) = false →
        regionDataOf filters region f1 = get_region_from_autosuggest region f1) := by
  intro main detail region ads page filters f1 f2
  constructor
  · intro h
    have hr : ∀ f : String → Option (List JObj),
        regionDataOf filters region f = .ok (get_region_from_filters filters) := fun f => by
      unfold regionDataOf
      rw [if_pos h]
    refine ⟨hr f1, ?_⟩
    unfold get_url
    rw [hr f1, hr f2]
  · intro h
    unfold regionDataOf
    rw [if_neg (by simp [h])]

theorem get_url_region_shortcircuit_witness :
    regionDataOf [("city", PyVal.s "warszawa_1")] "lodz" (fun _ => none) =
      .ok (get_region_from_filters [("city", PyVal.s "warszawa_1")]) ∧
    get_url "sprzedaz" "mieszkanie" "lodz" "" none [("city", PyVal.s "warszawa_1")]
        (fun _ => none) =
      get_url "sprzedaz" "mieszkanie" "lodz" "" none [("city", PyVal.s "warszawa_1")]
        (fun _ => some []) :=
  (get_url_region_shortcircuit "sprzedaz" "mieszkanie" "lodz" "" none
    [("city", PyVal.s "warszawa_1")] (fun _ => none) (fun _ => some [])).1 (by decide)

/-- **C4.** Every list-valued filter entry expands to one
`search<key>=<value>` fragment per element and every scalar entry to exactly
one fragment, the key URL-escaped; the fragments are joined with `&`
together with the ads-per-page and page fragments, whose empty strings
contribute extra leading `&` characters when unset (visible as `&&` in the
concrete URL). -/
theorem get_url_query_expansion :
    (∀ filters : List (String × PyVal),
      (queryFragments filters).length =
        (filters.map (fun kv =>
          match kv.2 with
          | .list xs => xs.length
          | _ => 1)).sum) ∧
    (∀ (k : String) (xs : List PyScalar) (rest : List (String × PyVal)),
      queryFragments ((k, .list xs) :: rest) =
        xs.map (fun item => "search" ++ pyQuote k ++ "=" ++ pyStrScalar item) ++
          queryFragments rest) ∧
    (∀ (k v : String) (rest : List (String × PyVal)),
      queryFragments ((k, .s v) :: rest) =
        ("search" ++ pyQuote k ++ "=" ++ v) :: queryFragments rest) ∧
    (∀ (k : String) (n : Int) (rest : List (String × PyVal)),
      queryFragments ((k, .i n) :: rest) =
        ("search" ++ pyQuote k ++ "=" ++ toString n) :: queryFragments rest) ∧
    (∀ (main detail region ads : String) (page : Option Nat)
      (filters rd : List (String × PyVal)) (fetch : String → Option (List JObj)),
      regionDataOf filters region fetch = .ok rd →
      get_url main detail region ads page filters fetch =
        .ok (get_url_path main detail rd (promote rd filters) ++
          "&".intercalate (ads :: pageOf page :: queryFragments (promote rd filters)))) ∧
    queryFragments [("[rooms]", .list [.i 1, .i 2])] =
      ["search%5Brooms%5D=1", "search%5Brooms%5D=2"] ∧
    get_url "sprzedaz" "mieszkanie" "" "" none
        [("city", .s "warszawa_1"), ("rooms", .list [.i 1, .i 2])] (fun _ => none) =
      .ok ("https://www.otodom.pl/sprzedaz/mieszkanie/warszawa_1" ++
        "&&searchcity=warszawa_1&searchrooms=1&searchrooms=2") := by
  refine ⟨?_, ?_, ?_, ?_, ?_, by decide, rfl⟩
  · intro filters
    induction filters with
    | nil => rfl
    | cons hd tl ih =>
      obtain ⟨k, v⟩ := hd
      rw [queryFragments_cons, List.map_cons, List.sum_cons, List.length_append, ih]
      cases v with
      | s v => rfl
      | i n => rfl
      | list xs => rw [List.length_map]
  · intro k xs rest
    rw [queryFragments_cons]
  · intro k v rest
    rw [queryFragments_cons]
    rfl
  · intro k n rest
    rw [queryFragments_cons]
    rfl
  · intro main detail region ads page filters rd fetch h
    unfold get_url
    rw [h]

theorem get_url_query_expansion_witness :
    get_url "sprzedaz" "mieszkanie" "" "nrAdsPerPage=72" (some 2) [("city", PyVal.s "w")]
        (fun _ => none) =
      .ok (get_url_path "sprzedaz" "mieszkanie"
          (get_region_from_filters [("city", PyVal.s "w")])
          (promote (get_region_from_filters [("city", PyVal.s "w")]) [("city", PyVal.s "w")]) ++
        "&".intercalate ("nrAdsPerPage=72" :: pageOf (some 2) ::
          queryFragments
            (promote (get_region_from_filters [("city", PyVal.s "w")]) [("city", PyVal.s "w")]))) :=
  get_url_query_expansion.2.2.2.2.1 "sprzedaz" "mieszkanie" "" "nrAdsPerPage=72" (some 2)
    [("city", PyVal.s "w")] (get_region_from_filters [("city", PyVal.s "w")]) (fun _ => none) rfl

/-- **C5.** The claim states that only the filter entries not consumed as
path segments are appended as query fragments.  It is false: the code never
removes `building_type` or `description_fragment` from the filters, so the
`description_fragment` entry of the concrete call appears both as the
`/q-blisko-metra` path segment and as a `searchdescription_fragment=...`
query fragment. -/
theorem get_url_consumed_entries_counterexample :
    get_url "sprzedaz" "mieszkanie" "" "" none
        [("city", PyVal.s "warszawa_1"), ("description_fragment", PyVal.s "blisko metra")]
        (fun _ => none) =
      .ok ("https://www.otodom.pl/sprzedaz/mieszkanie/warszawa_1/q-blisko-metra" ++
        "&&searchcity=warszawa_1&searchdescription_fragment=blisko metra") ∧
    ("search" ++ pyQuote "description_fragment" ++ "=" ++ "blisko metra") ∈
      queryFragments
        [("city", PyVal.s "warszawa_1"), ("description_fragment", PyVal.s "blisko metra")] :=
  ⟨rfl, by decide⟩

/-- **C5 (amended).** The building-type path segment and then the
hyphen-joined `q-` description segment follow the base/category/location
path in that fixed order; every filter entry — including the ones already
consumed as path segments — is appended as a `search<key>=<value>` query
fragment; and the concrete call produces `.../warszawa_1` followed by
`/q-blisko-metra`. -/
theorem get_url_path_order_amended :
    (∀ (main detail : String) (rd fs : List (String × PyVal)) (bt df : PyVal),
      dictGet? fs "building_type" = some bt →
      dictGet? fs "description_fragment" = some df →
      get_url_path main detail rd fs =
        "/".intercalate [BASE_URL, main, detail, cityOrVoivodeship rd] ++ "/" ++ pyStr bt ++
          "/q-" ++ "-".intercalate (pySplitWs (pyStr df))) ∧
    (∀ (fs : List (String × PyVal)) (k v : String),
      dictGet? fs k = some (.s v) →
      ("search" ++ pyQuote k ++ "=" ++ v) ∈ queryFragments fs) ∧
    get_url "sprzedaz" "mieszkanie" "" "" none
        [("city", PyVal.s "warszawa_1"), ("description_fragment", PyVal.s "blisko metra")]
        (fun _ => none) =
      .ok ("https://www.otodom.pl/sprzedaz/mieszkanie/warszawa_1" ++ "/q-blisko-metra" ++
        "&&searchcity=warszawa_1&searchdescription_fragment=blisko metra") := by
  refine ⟨?_, ?_, rfl⟩
  · intro main detail rd fs bt df hbt hdf
    unfold get_url_path
    rw [hbt, hdf]
  · intro fs k v h
    induction fs with
    | nil => simp [dictGet?] at h
    | cons hd tl ih =>
      obtain ⟨k0, v0⟩ := hd
      rw [dictGet_cons] at h
      by_cases hk : k0 = k
      · rw [if_pos hk] at h
        have hv0 : v0 = .s v := by
          exact Option.some_inj.mp h
        subst hv0
        subst hk
        rw [queryFragments_cons]
        exact List.mem_append_left _ (by simp [pyStr])
      · rw [if_neg hk] at h
        rw [queryFragments_cons]
        exact List.mem_append_right _ (ih h)

theorem get_url_path_order_amended_witness :
    get_url_path "sprzedaz" "dom" []
        [("building_type", PyVal.s "wolnostojacy"), ("description_fragment", PyVal.s "duzy ogrod")] =
      "/".intercalate ["https://www.otodom.pl", "sprzedaz", "dom", cityOrVoivodeship []] ++ "/" ++
        pyStr (PyVal.s "wolnostojacy") ++ "/q-" ++
        "-".intercalate (pySplitWs (pyStr (PyVal.s "duzy ogrod"))) :=
  get_url_path_order_amended.1 "sprzedaz" "dom" []
    [("building_type", PyVal.s "wolnostojacy"), ("description_fragment", PyVal.s "duzy ogrod")]
    (PyVal.s "wolnostojacy") (PyVal.s "duzy ogrod") rfl rfl

/-! ## Claim theorems about the autosuggest resolver -/

/-- **C8.** An empty (falsy) region string makes
`get_region_from_autosuggest` return the empty mapping, whatever the fetch
oracle is — in particular the result does not depend on the oracle, so no
network request is made. -/
theorem get_region_from_autosuggest_empty_spec :
    ∀ fetch : String → Option (List JObj),
      get_region_from_autosuggest "" fetch = .ok [] :=
  fun _ => rfl

/-- **C9.** The claim states the region fragment is URL-escaped before being
substituted into the autosuggest URL.  It is false: the code formats
`region_part` into the template verbatim (`quote` is never applied to it).
A fetch oracle that only answers at the unescaped URL sees the request and
resolves; one that only answers at the escaped URL is never hit and the call
fails with a JSON decode error. -/
theorem get_region_from_autosuggest_unescaped_counterexample :
    pyQuote "a b" = "a%20b" ∧
    autosuggestUrl "a b" = "https://www.otodom.pl/ajax/geo6/autosuggest/?data=a b" ∧
    autosuggestUrl "a b" ≠
      "https://www.otodom.pl/ajax/geo6/autosuggest/?data=" ++ pyQuote "a b" ∧
    get_region_from_autosuggest "a b"
        (fun u => if u = "https://www.otodom.pl/ajax/geo6/autosuggest/?data=a b"
          then some [[("level", .s "CITY"), ("text", .s "Abc"), ("city_id", .i 1)]] else none) =
      .ok [("city", PyVal.s "abc_1")] ∧
    get_region_from_autosuggest "a b"
        (fun u => if u = "https://www.otodom.pl/ajax/geo6/autosuggest/?data=" ++ pyQuote "a b"
          then some [[("level", .s "CITY"), ("text", .s "Abc"), ("city_id", .i 1)]] else none) =
      .error .jsonError :=
  ⟨by decide, rfl, by decide, rfl, rfl⟩

/-- **C9 (amended).** For every non-empty region fragment the HTTP GET goes
to the fixed endpoint with the fragment substituted verbatim (not
URL-escaped), and the result depends on the fetch oracle only through its
answer at that one URL. -/
theorem get_region_from_autosuggest_url_amended :
    (∀ region_part : String,
      autosuggestUrl region_part =
        "https://www.otodom.pl/ajax/geo6/autosuggest/?data=" ++ region_part) ∧
    (∀ (r : String) (f1 f2 : String → Option (List JObj)),
      f1 (autosuggestUrl r) = f2 (autosuggestUrl r) →
      get_region_from_autosuggest r f1 = get_region_from_autosuggest r f2) := by
  refine ⟨fun _ => rfl, fun r f1 f2 h => ?_⟩
  unfold get_region_from_autosuggest
  rw [h]

theorem get_region_from_autosuggest_url_amended_witness :
    get_region_from_autosuggest "a b" (fun _ => none) =
      get_region_from_autosuggest "a b"
        (fun u => if u = "https://www.otodom.pl/ajax/geo6/autosuggest/?data=" ++ pyQuote "a b"
          then some [] else none) :=
  get_region_from_autosuggest_url_amended.2 "a b" (fun _ => none)
    (fun u => if u = "https://www.otodom.pl/ajax/geo6/autosuggest/?data=" ++ pyQuote "a b"
      then some [] else none) (by decide)

theorem graa_first (r : String) (f : String → Option (List JObj)) (o : JObj)
    (rest : List JObj) (hr : ¬(r = "")) (hf : f (autosuggestUrl r) = some (o :: rest)) :
    get_region_from_autosuggest r f = autosuggestFrom o := by
  unfold get_region_from_autosuggest
  rw [if_neg hr, hf]

theorem afromStep (o : JObj) (lv : PyScalar) (rawText : String)
    (hlv : objGet o "level" = .ok lv) (htx : objGet o "text" = .ok (.s rawText)) :
    autosuggestFrom o = autosuggestBranch lv (textParts rawText) o := by
  unfold autosuggestFrom
  rw [hlv, htx]

/-- **C6.** The claim states the resolver raises whenever the first
element's `level` has a value other than CITY, DISTRICT, REGION or STREET.
It is false: the `if`/`elif` chain has no `else`, so an unrecognized level
falls through and the initial empty dict is returned without error. -/
theorem get_region_from_autosuggest_level_counterexample :
    get_region_from_autosuggest "warszawa"
        (fun _ => some [[("level", .s "COUNTRY"), ("text", .s "Polska")]]) = .ok [] ∧
    raises (get_region_from_autosuggest "warszawa"
        (fun _ => some [[("level", .s "COUNTRY"), ("text", .s "Polska")]])) = false :=
  ⟨rfl, rfl⟩

/-- **C6 (amended).** For a non-empty region part the resolver raises a
propagate-to-caller failure when the response JSON is malformed or absent,
when the array is empty, when `level` or `text` is missing, when `text` is
not a string, or when a field required by the taken branch (`city_id`,
`district_id`, `street_id`) is missing; but an unrecognized `level` value
(string or not) does not raise — the empty mapping is returned. -/
theorem get_region_from_autosuggest_errors_amended :
    (∀ (r : String) (f : String → Option (List JObj)), r ≠ "" →
      f (autosuggestUrl r) = none →
      get_region_from_autosuggest r f = .error .jsonError) ∧
    (∀ (r : String) (f : String → Option (List JObj)), r ≠ "" →
      f (autosuggestUrl r) = some [] →
      get_region_from_autosuggest r f = .error .indexError) ∧
    (∀ (r : String) (f : String → Option (List JObj)) (o : JObj) (rest : List JObj)
      (e : PyErr), r ≠ "" → f (autosuggestUrl r) = some (o :: rest) →
      objGet o "level" = .error e →
      get_region_from_autosuggest r f = .error e) ∧
    (∀ (r : String) (f : String → Option (List JObj)) (o : JObj) (rest : List JObj)
      (lv : PyScalar) (e : PyErr), r ≠ "" → f (autosuggestUrl r) = some (o :: rest) →
      objGet o "level" = .ok lv → objGet o "text" = .error e →
      get_region_from_autosuggest r f = .error e) ∧
    (∀ (r : String) (f : String → Option (List JObj)) (o : JObj) (rest : List JObj)
      (lv : PyScalar) (n : Int), r ≠ "" → f (autosuggestUrl r) = some (o :: rest) →
      objGet o "level" = .ok lv → objGet o "text" = .ok (.i n) →
      get_region_from_autosuggest r f = .error .attributeError) ∧
    (∀ (r : String) (f : String → Option (List JObj)) (o : JObj) (rest : List JObj)
      (lv t : String), r ≠ "" → f (autosuggestUrl r) = some (o :: rest) →
      objGet o "level" = .ok (.s lv) → objGet o "text" = .ok (.s t) →
      lv ≠ "CITY" → lv ≠ "DISTRICT" → lv ≠ "REGION" → lv ≠ "STREET" →
      get_region_from_autosuggest r f = .ok []) ∧
    (∀ (r : String) (f : String → Option (List JObj)) (o : JObj) (rest : List JObj)
      (n : Int) (t : String), r ≠ "" → f (autosuggestUrl r) = some (o :: rest) →
      objGet o "level" = .ok (.i n) → objGet o "text" = .ok (.s t) →
      get_region_from_autosuggest r f = .ok []) ∧
    (∀ (r : String) (f : String → Option (List JObj)) (o : JObj) (rest : List JObj)
      (t t0 : String) (e : PyErr), r ≠ "" → f (autosuggestUrl r) = some (o :: rest) →
      objGet o "level" = .ok (.s "CITY") → objGet o "text" = .ok (.s t) →
      listIdx (textParts t) 0 = .ok t0 → objGet o "city_id" = .error e →
      get_region_from_autosuggest r f = .error e) ∧
    (∀ (r : String) (f : String → Option (List JObj)) (o : JObj) (rest : List JObj)
      (t t1 : String) (cid : PyScalar) (e : PyErr), r ≠ "" →
      f (autosuggestUrl r) = some (o :: rest) →
      objGet o "level" = .ok (.s "DISTRICT") → objGet o "text" = .ok (.s t) →
      listIdx (textParts t) 1 = .ok t1 → objGet o "city_id" = .ok cid →
      objGet o "district_id" = .error e →
      get_region_from_autosuggest r f = .error e) ∧
    (∀ (r : String) (f : String → Option (List JObj)) (o : JObj) (rest : List JObj)
      (t t0 : String) (cid : PyScalar) (e : PyErr), r ≠ "" →
      f (autosuggestUrl r) = some (o :: rest) →
      objGet o "level" = .ok (.s "STREET") → objGet o "text" = .ok (.s t) →
      listIdx (textParts t) 0 = .ok t0 → objGet o "city_id" = .ok cid →
      objGet o "street_id" = .error e →
      get_region_from_autosuggest r f = .error e) := by
  refine ⟨?_, ?_, ?_, ?_, ?_, ?_, ?_, ?_, ?_, ?_⟩
  · intro r f hr hf
    unfold get_region_from_autosuggest
    rw [if_neg hr, hf]
  · intro r f hr hf
    unfold get_region_from_autosuggest
    rw [if_neg hr, hf]
  · intro r f o rest e hr hf hlv
    rw [graa_first r f o rest hr hf]
    unfold autosuggestFrom
    rw [hlv]
  · intro r f o rest lv e hr hf hlv htx
    rw [graa_first r f o rest hr hf]
    unfold autosuggestFrom
    rw [hlv, htx]
  · intro r f o rest lv n hr hf hlv htx
    rw [graa_first r f o rest hr hf]
    unfold autosuggestFrom
    rw [hlv, htx]
  · intro r f o rest lv t hr hf hlv htx hC hD hR hS
    rw [graa_first r f o rest hr hf, afromStep o (.s lv) t hlv htx]
    simp only [autosuggestBranch]
    rw [if_neg hC, if_neg hD, if_neg hR, if_neg hS]
  · intro r f o rest n t hr hf hlv htx
    rw [graa_first r f o rest hr hf, afromStep o (.i n) t hlv htx]
    rfl
  · intro r f o rest t t0 e hr hf hlv htx hidx hcid
    rw [graa_first r f o rest hr hf, afromStep o (.s "CITY") t hlv htx]
    simp only [autosuggestBranch]
    rw [if_pos trivial, hidx, hcid]
  · intro r f o rest t t1 cid e hr hf hlv htx hidx hcid hdid
    rw [graa_first r f o rest hr hf, afromStep o (.s "DISTRICT") t hlv htx]
    simp only [autosuggestBranch]
    rw [if_neg (by decide), if_pos trivial, hidx, hcid, hdid]
  · intro r f o rest t t0 cid e hr hf hlv htx hidx hcid hsid
    rw [graa_first r f o rest hr hf, afromStep o (.s "STREET") t hlv htx]
    simp only [autosuggestBranch]
    rw [if_neg (by decide), if_neg (by decide), if_neg (by decide), if_pos trivial,
      hidx, hcid, hsid]

theorem get_region_from_autosuggest_errors_amended_witness :
    get_region_from_autosuggest "lodz" (fun _ => none) = .error .jsonError ∧
    get_region_from_autosuggest "lodz"
        (fun _ => some [[("level", .s "CITY"), ("text", .s "Lodz")]]) =
      .error (.keyError "city_id") :=
  ⟨get_region_from_autosuggest_errors_amended.1 "lodz" (fun _ => none) (by decide) rfl,
   get_region_from_autosuggest_errors_amended.2.2.2.2.2.2.2.1 "lodz"
     (fun _ => some [[("level", .s "CITY"), ("text", .s "Lodz")]])
     [("level", .s "CITY"), ("text", .s "Lodz")] [] "Lodz" "Lodz" (.keyError "city_id")
     (by decide) rfl rfl rfl rfl rfl⟩

/-! ## Claim theorems about the CSRF extractor -/

/-- **C7.** The claim states that on body text without a match the extractor
returns `None` rather than raising.  It is false: `re.match` returns `None`
and the unconditional `found.groupdict()` raises `AttributeError`. -/
theorem get_csrf_token_no_match_counterexample :
    get_csrf_token "no token here" = .error .attributeError ∧
    raises (get_csrf_token "no token here") = true :=
  ⟨rfl, rfl⟩

/-- **C7 (amended).** On body text matched by the `csrfToken = \x27...\x27`
pattern the extractor returns the capture group (`"XYZ123"` on the spec's
example); on body text with no match it raises an attribute error instead of
returning `None`. -/
theorem get_csrf_token_amended :
    get_csrf_token "csrfToken = \x27XYZ123\x27" = .ok (some "XYZ123") ∧
    (∀ s tok : String, reMatchCsrf s = some tok → get_csrf_token s = .ok (some tok)) ∧
    (∀ s : String, reMatchCsrf s = none → get_csrf_token s = .error .attributeError) := by
  refine ⟨rfl, fun s tok h => ?_, fun s h => ?_⟩
  · unfold get_csrf_token
    rw [h]
  · unfold get_csrf_token
    rw [h]

theorem get_csrf_token_amended_witness :
    get_csrf_token "var x = 1;" = .error .attributeError :=
  get_csrf_token_amended.2.2 "var x = 1;" (by decide)

end Pyotodom
